import Mathlib

/-!
# Verification of the EXOSIMS survey-simulation core

Shallow embedding of the mission scheduling and observation-execution engine
of `EXOSIMS/Prototypes/SurveySimulation.py`, together with a model of the
Mission Clock (`TimeKeeping`).  Times, working angles, completeness values and
signal-to-noise ratios are represented by rationals; external collaborators
(keepout geometry, integration-time and photon-count oracles, the
detection-statistics oracle) are abstracted as function parameters, exactly as
the specification declares them out of scope.
-/

set_option autoImplicit false

/-! ## Mission Clock (`TimeKeeping`)

The `TimeKeeping` prototype itself is not part of the analysed sources (only
its unit tests are), so the clock is modelled from the specification. -/

/-- Modelled from the spec: the state of the `TimeKeeping` module, which is
missing from the analysed sources.  Fields follow §3 "MissionClock":
absolute calendar time, normalized elapsed time, the observation sub-budget
`exoplanetObsTime`, the mission-life ceiling and observation fraction, the
ordered Observing Block windows with the index of the current block, and the
fixed retry interval `dtAlloc` used by `next_target`.  All times are in days. -/
structure TimeKeeping where
  currentTimeAbs : ℚ
  currentTimeNorm : ℚ
  exoplanetObsTime : ℚ
  missionLife : ℚ
  missionPortion : ℚ
  OBstartTimes : List ℚ
  OBendTimes : List ℚ
  OBnumber : ℕ
  dtAlloc : ℚ
  deriving DecidableEq

/-- End time of the current Observing Block, `OBendTimes[OBnumber]`. -/
def TimeKeeping.curOBend (tk : TimeKeeping) : ℚ :=
  tk.OBendTimes.getD tk.OBnumber 0

/-- Modelled from the spec: `allocate_time(Δt, chargeToObsBudget)`
(§4.1; the method itself is missing from the analysed sources, only its unit
tests are present).  It fails — returning `false` with the state untouched —
if `Δt ≤ 0`, or if applying it would exceed `missionLife`, exceed the current
Observing Block's end time, or (when the charge flag is set) exceed
`missionLife·missionPortion`.  On success it advances `currentTimeAbs` and
`currentTimeNorm` by `Δt`, and `exoplanetObsTime` by `Δt` only when charged. -/
def allocate_time (tk : TimeKeeping) (dt : ℚ) (addExoplanetObsTime : Bool) :
    TimeKeeping × Bool :=
  if dt ≤ 0 then (tk, false)
  else if tk.missionLife < tk.currentTimeNorm + dt then (tk, false)
  else if tk.curOBend < tk.currentTimeNorm + dt then (tk, false)
  else if addExoplanetObsTime = true ∧
      tk.missionLife * tk.missionPortion < tk.exoplanetObsTime + dt then
    (tk, false)
  else
    ({ tk with
        currentTimeAbs := tk.currentTimeAbs + dt
        currentTimeNorm := tk.currentTimeNorm + dt
        exoplanetObsTime :=
          tk.exoplanetObsTime + (if addExoplanetObsTime then dt else 0) },
      true)

/-- Modelled from the spec: `mission_is_over()` (§4.1; the method itself is
missing from the analysed sources).  True if the observation sub-budget is
used up, the mission life is reached, or the current Observing Block's end has
been passed with no further block available. -/
def mission_is_over (tk : TimeKeeping) : Bool :=
  decide (tk.missionLife * tk.missionPortion ≤ tk.exoplanetObsTime) ||
  decide (tk.missionLife ≤ tk.currentTimeNorm) ||
  (decide (tk.curOBend < tk.currentTimeNorm) &&
    decide (tk.OBendTimes.length ≤ tk.OBnumber + 1))

/-- On a failed allocation the clock state is returned untouched. -/
theorem allocate_time_fail (tk : TimeKeeping) (dt : ℚ) (c : Bool)
    (h : (allocate_time tk dt c).2 = false) : (allocate_time tk dt c).1 = tk := by
  unfold allocate_time at h ⊢
  split_ifs at h ⊢ <;> simp_all

/-- C1: `allocate_time` is all-or-nothing.  For every duration `dt` and
charge-flag value, if the allocation is invalid (`dt ≤ 0`, or it would push
`currentTimeNorm` past `missionLife`, or past the current Observing Block's
end, or, when the charge flag is true, push `exoplanetObsTime` past
`missionLife·missionPortion`), then `allocate_time` returns `false` and
`currentTimeAbs`, `currentTimeNorm` and `exoplanetObsTime` are each exactly
unchanged by the call. -/
theorem allocate_time_all_or_nothing (tk : TimeKeeping) (dt : ℚ) (c : Bool)
    (h : dt ≤ 0 ∨ tk.missionLife < tk.currentTimeNorm + dt ∨
      tk.curOBend < tk.currentTimeNorm + dt ∨
      (c = true ∧ tk.missionLife * tk.missionPortion < tk.exoplanetObsTime + dt)) :
    (allocate_time tk dt c).2 = false ∧
    (allocate_time tk dt c).1.currentTimeAbs = tk.currentTimeAbs ∧
    (allocate_time tk dt c).1.currentTimeNorm = tk.currentTimeNorm ∧
    (allocate_time tk dt c).1.exoplanetObsTime = tk.exoplanetObsTime := by
  have hfail : (allocate_time tk dt c).2 = false := by
    unfold allocate_time
    split_ifs with h1 h2 h3 h4 <;> try rfl
    exact absurd h (by push_neg; exact ⟨not_le.mp h1, not_lt.mp h2, not_lt.mp h3,
      fun hc => by
        rcases Decidable.not_and_iff_or_not.mp h4 with h' | h'
        · exact absurd hc h'
        · exact not_lt.mp h'⟩)
  refine ⟨hfail, ?_⟩
  rw [allocate_time_fail tk dt c hfail]
  exact ⟨rfl, rfl, rfl⟩

/-- Witness for C1: a concrete invalid allocation (`dt = 0`) on a concrete
clock state fails and leaves every clock field unchanged. -/
theorem allocate_time_all_or_nothing_witness :
    (allocate_time
      { currentTimeAbs := 5, currentTimeNorm := 5, exoplanetObsTime := 1,
        missionLife := 100, missionPortion := 1/2,
        OBstartTimes := [0], OBendTimes := [100], OBnumber := 0, dtAlloc := 1 }
      0 true).2 = false ∧
    (allocate_time
      { currentTimeAbs := 5, currentTimeNorm := 5, exoplanetObsTime := 1,
        missionLife := 100, missionPortion := 1/2,
        OBstartTimes := [0], OBendTimes := [100], OBnumber := 0, dtAlloc := 1 }
      0 true).1.currentTimeAbs = 5 ∧
    (allocate_time
      { currentTimeAbs := 5, currentTimeNorm := 5, exoplanetObsTime := 1,
        missionLife := 100, missionPortion := 1/2,
        OBstartTimes := [0], OBendTimes := [100], OBnumber := 0, dtAlloc := 1 }
      0 true).1.currentTimeNorm = 5 ∧
    (allocate_time
      { currentTimeAbs := 5, currentTimeNorm := 5, exoplanetObsTime := 1,
        missionLife := 100, missionPortion := 1/2,
        OBstartTimes := [0], OBendTimes := [100], OBnumber := 0, dtAlloc := 1 }
      0 true).1.exoplanetObsTime = 1 :=
  allocate_time_all_or_nothing _ 0 true (Or.inl (by norm_num))

/-- C2: `mission_is_over` returns true if and only if at least one of the
following holds: `exoplanetObsTime ≥ missionLife·missionPortion`, or
`currentTimeNorm ≥ missionLife`, or `currentTimeNorm` exceeds the end of the
current Observing Block and no further block exists. -/
theorem mission_is_over_iff (tk : TimeKeeping) :
    mission_is_over tk = true ↔
      (tk.missionLife * tk.missionPortion ≤ tk.exoplanetObsTime ∨
       tk.missionLife ≤ tk.currentTimeNorm ∨
       (tk.curOBend < tk.currentTimeNorm ∧
        tk.OBendTimes.length ≤ tk.OBnumber + 1)) := by
  unfold mission_is_over
  simp [or_assoc]

/-! ## Target Selector (`next_target`, SurveySimulation.py lines 301-433)

The pipeline operates on the candidate-index array `sInds`.  External oracles
(keepout geometry at start/end times, `calc_maxintTime`, completeness values)
are abstracted as functions of the star index; the seeded random draw of
`np.random.choice` is abstracted by an index `randIdx` reduced modulo the
length of the tied-candidate list. -/

/-- Truthiness of `np.any` on an integer index array: true iff some element is
nonzero.  In particular `np.any([0])` is false: an array holding only star
index 0 is treated as empty. -/
def npAnyNat (l : List ℕ) : Bool := l.any (fun i => decide (i ≠ 0))

/-- Oracle inputs and mode/configuration constants consumed by `next_target`. -/
structure NTInputs where
  nStars : ℕ
  kogoodStart : ℕ → Bool
  tDet : ℕ → ℚ
  kogoodEnd : ℕ → Bool
  comp0 : ℕ → ℚ
  compUpd : ℕ → ℚ
  timeMultiplier : ℚ
  intCutoff : ℚ
  randIdx : ℕ

/-- Step 1 (lines 349-371): start positions and keepout filter,
`sInds = sInds[np.where(kogoodStart)[0]]` over the initial `range(nStars)`. -/
def sInds1 (inp : NTInputs) : List ℕ :=
  (List.range inp.nStars).filter inp.kogoodStart

/-- The full `t_dets` array (line 345 and 378): zero-initialised, assigned at
the indices surviving step 1 from the integration-time oracle. -/
def tDetsArr (inp : NTInputs) (i : ℕ) : ℚ :=
  if i ∈ sInds1 inp then inp.tDet i else 0

/-- `t_tot = t_dets*mode['timeMultiplier']` (line 380). -/
def tTot (inp : NTInputs) (i : ℕ) : ℚ := tDetsArr inp i * inp.timeMultiplier

/-- Step 2 (lines 375-382): gated on `np.any(sInds)`; keeps indices of the
full-length array with `0 < t_tot < OS.intCutoff`. -/
def sInds2 (inp : NTInputs) : List ℕ :=
  if npAnyNat (sInds1 inp) then
    (List.range inp.nStars).filter
      (fun i => decide (0 < tTot inp i) && decide (tTot inp i < inp.intCutoff))
  else sInds1 inp

/-- Step 3 (lines 386-390): gated on `np.any(sInds)`; end-keepout filter. -/
def sInds3 (inp : NTInputs) : List ℕ :=
  if npAnyNat (sInds2 inp) then (sInds2 inp).filter inp.kogoodEnd else sInds2 inp

/-- `np.min` over a nonempty natural-number list (0 on the empty list, which
the gated caller never passes). -/
def qminN : List ℕ → ℕ
  | [] => 0
  | [a] => a
  | a :: b :: t => min a (qminN (b :: t))

/-- `self.starVisits[sInds].min()` (line 395). -/
def minVisits (visits : ℕ → ℕ) (l : List ℕ) : ℕ := qminN (l.map visits)

/-- A revisit entry `(x, t_r)` matches (lines 398-399) iff
`|t_r - currentTimeNorm| < 1 week` (strict, one week = 7 days) and `x` is in
the surviving candidate set. -/
def entryMatched (now : ℚ) (l : List ℕ) (e : ℕ × ℚ) : Bool :=
  decide (|e.2 - now| < 7) && decide (e.1 ∈ l)

/-- `ind_rev` (line 399): indices of matching revisit entries. -/
def ind_rev (R : List (ℕ × ℚ)) (now : ℚ) (l : List ℕ) : List ℕ :=
  (R.filter (entryMatched now l)).map (fun e => e.1)

/-- The `tovisit` array after step 4 (lines 394-400): set at the surviving
candidates with the minimum-visit-count condition, then forced true at the
matched revisit indices (the revisit branch runs only when the revisit list is
nonempty). -/
def tovisit (visits : ℕ → ℕ) (R : List (ℕ × ℚ)) (now : ℚ) (l : List ℕ)
    (i : ℕ) : Bool :=
  (decide (i ∈ l) && decide (visits i = minVisits visits l)) ||
  (!R.isEmpty && decide (i ∈ ind_rev R now l))

/-- Step 4 (lines 394-401): gated on `np.any(sInds)`;
`sInds = np.where(tovisit)[0]`. -/
def sInds4 (inp : NTInputs) (visits : ℕ → ℕ) (R : List (ℕ × ℚ)) (now : ℚ) :
    List ℕ :=
  if npAnyNat (sInds3 inp) then
    (List.range inp.nStars).filter (tovisit visits R now (sInds3 inp))
  else sInds3 inp

/-- Effective completeness (lines 406-408): the baseline `comp0` for
never-visited targets, the time-dependent update for visited ones. -/
def compEff (inp : NTInputs) (visits : ℕ → ℕ) (i : ℕ) : ℚ :=
  if 0 < visits i then inp.compUpd i else inp.comp0 i

/-- `np.max` over a nonempty rational list (0 on the empty list, which the
gated caller never passes). -/
def qmax : List ℚ → ℚ
  | [] => 0
  | [a] => a
  | a :: b :: t => max a (qmax (b :: t))

/-- The tied candidates at maximum completeness, `sInds[mask]` (line 409). -/
def pickMax (inp : NTInputs) (visits : ℕ → ℕ) (l : List ℕ) : List ℕ :=
  l.filter (fun i => decide (compEff inp visits i = qmax (l.map (compEff inp visits))))

/-- `np.random.choice` under a seeded source, abstracted as selection of the
`randIdx % length`-th element (line 410). -/
def npChoice (l : List ℕ) (k : ℕ) : ℕ := l.getD (k % l.length) 0

/-- Step 5 (lines 403-421): on `np.any(sInds)` choose a maximal-completeness
candidate and return it with its stored `t_dets` value; otherwise report no
target (the caller then allocates `dtAlloc` and retries). -/
def nextTargetPipeline (inp : NTInputs) (visits : ℕ → ℕ) (R : List (ℕ × ℚ))
    (now : ℚ) : Option (ℕ × ℚ) :=
  if npAnyNat (sInds4 inp visits R now) then
    some (npChoice (pickMax inp visits (sInds4 inp visits R now)) inp.randIdx,
      tDetsArr inp (npChoice (pickMax inp visits (sInds4 inp visits R now)) inp.randIdx))
  else none

/-- The `while not TK.mission_is_over()` retry loop of `next_target`
(lines 341-424), fuelled for termination: each iteration runs the pipeline at
the current normalized time; on failure it charges `TK.dtAlloc` (line 420,
ignoring the boolean result, exactly as the source does) and retries. -/
def next_target_loop (inp : NTInputs) (visits : ℕ → ℕ) (R : List (ℕ × ℚ)) :
    ℕ → TimeKeeping → Option (ℕ × ℚ)
  | 0, _ => none
  | fuel+1, tk =>
    if mission_is_over tk then none
    else
      match nextTargetPipeline inp visits R tk.currentTimeNorm with
      | some st => some st
      | none => next_target_loop inp visits R fuel (allocate_time tk tk.dtAlloc true).1

/-- `qmax` of a nonempty list is attained by one of its elements
(`np.max` semantics). -/
theorem qmax_mem : ∀ (l : List ℚ), l ≠ [] → qmax l ∈ l
  | [a], _ => by simp [qmax]
  | a :: b :: t, _ => by
    have ih := qmax_mem (b :: t) (by simp)
    unfold qmax
    rcases max_choice a (qmax (b :: t)) with h | h <;> rw [h]
    · exact List.mem_cons_self _ _
    · exact List.mem_cons_of_mem _ ih

/-- `getD` at an in-range position returns an element of the list. -/
theorem getD_mem_of_lt : ∀ (l : List ℕ) (n : ℕ), n < l.length → l.getD n 0 ∈ l
  | a :: t, 0, _ => by simp
  | a :: t, n+1, h => by
    rw [List.getD_cons_succ]
    exact List.mem_cons_of_mem _ (getD_mem_of_lt t n (by simpa using h))

/-- `npChoice` draws an element of a nonempty list. -/
theorem npChoice_mem (l : List ℕ) (k : ℕ) (h : l ≠ []) : npChoice l k ∈ l := by
  have hlen : 0 < l.length := List.length_pos.mpr h
  exact getD_mem_of_lt l (k % l.length) (Nat.mod_lt _ hlen)

/-- An index array with a true `np.any` is nonempty. -/
theorem npAnyNat_ne_nil (l : List ℕ) (h : npAnyNat l = true) : l ≠ [] := by
  intro hnil
  subst hnil
  simp [npAnyNat] at h

/-- The maximum-completeness tie set of a nonempty survivor list is nonempty. -/
theorem pickMax_ne_nil (inp : NTInputs) (visits : ℕ → ℕ) (l : List ℕ)
    (h : l ≠ []) : pickMax inp visits l ≠ [] := by
  have hmap : l.map (compEff inp visits) ≠ [] := by simpa using h
  obtain ⟨i, hi, hfi⟩ := List.mem_map.1 (qmax_mem _ hmap)
  exact List.ne_nil_of_mem (List.mem_filter.2 ⟨hi, by simp [hfi]⟩)

/-- A matched revisit index belongs to the surviving candidate set (the list
comprehension at line 399 requires `x in sInds`). -/
theorem ind_rev_subset (R : List (ℕ × ℚ)) (now : ℚ) (l : List ℕ) (i : ℕ)
    (h : i ∈ ind_rev R now l) : i ∈ l := by
  unfold ind_rev at h
  obtain ⟨e, he, rfl⟩ := List.mem_map.1 h
  have hm := (List.mem_filter.1 he).2
  unfold entryMatched at hm
  simp only [Bool.and_eq_true, decide_eq_true_eq] at hm
  exact hm.2

/-- `tovisit` is only ever set within the stage's surviving candidate set. -/
theorem tovisit_mem (visits : ℕ → ℕ) (R : List (ℕ × ℚ)) (now : ℚ)
    (l : List ℕ) (i : ℕ) (h : tovisit visits R now l i = true) : i ∈ l := by
  unfold tovisit at h
  simp only [Bool.or_eq_true, Bool.and_eq_true, decide_eq_true_eq] at h
  rcases h with ⟨h1, _⟩ | ⟨_, h2⟩
  · exact h1
  · exact ind_rev_subset R now l i h2

/-- Step 4 only narrows the step-3 survivor set. -/
theorem sInds4_subset (inp : NTInputs) (visits : ℕ → ℕ) (R : List (ℕ × ℚ))
    (now : ℚ) (i : ℕ) (h : i ∈ sInds4 inp visits R now) : i ∈ sInds3 inp := by
  unfold sInds4 at h
  split_ifs at h
  · exact tovisit_mem _ _ _ _ _ (List.mem_filter.1 h).2
  · exact h

/-- Step 3 only narrows the step-2 survivor set. -/
theorem sInds3_subset (inp : NTInputs) (i : ℕ) (h : i ∈ sInds3 inp) :
    i ∈ sInds2 inp := by
  unfold sInds3 at h
  split_ifs at h
  · exact (List.mem_filter.1 h).1
  · exact h

/-- If selection is reached then the step-3 gate was passed. -/
theorem npAny3_of_npAny4 (inp : NTInputs) (visits : ℕ → ℕ) (R : List (ℕ × ℚ))
    (now : ℚ) (h : npAnyNat (sInds4 inp visits R now) = true) :
    npAnyNat (sInds3 inp) = true := by
  by_contra hf
  rw [Bool.not_eq_true] at hf
  have h4 : sInds4 inp visits R now = sInds3 inp := by
    unfold sInds4
    rw [if_neg (by simp [hf])]
  rw [h4, hf] at h
  cases h

/-- If the step-3 gate was passed then the step-2 gate was passed. -/
theorem npAny2_of_npAny3 (inp : NTInputs) (h : npAnyNat (sInds3 inp) = true) :
    npAnyNat (sInds2 inp) = true := by
  by_contra hf
  rw [Bool.not_eq_true] at hf
  have h3 : sInds3 inp = sInds2 inp := by
    unfold sInds3
    rw [if_neg (by simp [hf])]
  rw [h3, hf] at h
  cases h

/-- If the step-2 gate was passed then the step-1 gate was passed, so the
step-2 survivors really are the integration-time-filtered indices. -/
theorem npAny1_of_npAny2 (inp : NTInputs) (h : npAnyNat (sInds2 inp) = true) :
    npAnyNat (sInds1 inp) = true := by
  by_contra hf
  rw [Bool.not_eq_true] at hf
  have h2 : sInds2 inp = sInds1 inp := by
    unfold sInds2
    rw [if_neg (by simp [hf])]
  rw [h2, hf] at h
  cases h

/-- Any target the pipeline selects carries its stored `t_dets` value and
survived the integration-time filter of step 2. -/
theorem pipeline_some_bound (inp : NTInputs) (visits : ℕ → ℕ)
    (R : List (ℕ × ℚ)) (now : ℚ) (s : ℕ) (t : ℚ)
    (h : nextTargetPipeline inp visits R now = some (s, t)) :
    0 < t * inp.timeMultiplier ∧ t * inp.timeMultiplier < inp.intCutoff := by
  unfold nextTargetPipeline at h
  by_cases hany : npAnyNat (sInds4 inp visits R now) = true
  · rw [if_pos hany] at h
    have hpair := Option.some.inj h
    have hs : s = npChoice (pickMax inp visits (sInds4 inp visits R now)) inp.randIdx := by
      have := congrArg Prod.fst hpair
      simpa using this.symm
    have ht : t = tDetsArr inp s := by
      have := congrArg Prod.snd hpair
      rw [hs]
      simpa using this.symm
    have hmem : s ∈ pickMax inp visits (sInds4 inp visits R now) := by
      rw [hs]
      exact npChoice_mem _ _
        (pickMax_ne_nil inp visits _ (npAnyNat_ne_nil _ hany))
    have hmem4 : s ∈ sInds4 inp visits R now := (List.mem_filter.1 hmem).1
    have hmem2 : s ∈ sInds2 inp :=
      sInds3_subset inp s (sInds4_subset inp visits R now s hmem4)
    have hany1 : npAnyNat (sInds1 inp) = true :=
      npAny1_of_npAny2 inp
        (npAny2_of_npAny3 inp (npAny3_of_npAny4 inp visits R now hany))
    have h2eq : sInds2 inp = (List.range inp.nStars).filter
        (fun i => decide (0 < tTot inp i) && decide (tTot inp i < inp.intCutoff)) := by
      unfold sInds2
      rw [if_pos hany1]
    rw [h2eq] at hmem2
    have hcond := (List.mem_filter.1 hmem2).2
    simp only [Bool.and_eq_true, decide_eq_true_eq] at hcond
    rw [ht]
    exact hcond
  · rw [if_neg hany] at h
    cases h

/-- C3: whenever `next_target` returns a target index `sInd` with integration
time `t_det` (rather than `None`), the total time `t_det` multiplied by the
mode's `timeMultiplier` lies strictly between `0` and the integration-time
cutoff `intCutoff` (SurveySimulation.py lines 373-382 and 403-433). -/
theorem next_target_time_in_bounds (inp : NTInputs) (visits : ℕ → ℕ)
    (R : List (ℕ × ℚ)) (fuel : ℕ) (tk : TimeKeeping) (s : ℕ) (t : ℚ)
    (h : next_target_loop inp visits R fuel tk = some (s, t)) :
    0 < t * inp.timeMultiplier ∧ t * inp.timeMultiplier < inp.intCutoff := by
  induction fuel generalizing tk with
  | zero => exact absurd h (by simp [next_target_loop])
  | succ n ih =>
    rw [next_target_loop] at h
    by_cases hover : mission_is_over tk = true
    · rw [if_pos hover] at h
      cases h
    · rw [if_neg hover] at h
      cases hp : nextTargetPipeline inp visits R tk.currentTimeNorm with
      | some st =>
        rw [hp] at h
        have h' : st = (s, t) := Option.some.inj h
        rw [h'] at hp
        exact pipeline_some_bound inp visits R tk.currentTimeNorm s t hp
      | none =>
        rw [hp] at h
        exact ih _ h

/-- Concrete two-star scenario in which the selector returns star 1's
companionless catalog twin: all keepout checks pass, the integration-time
oracle returns one day, and the pipeline selects a target. -/
def inpC3 : NTInputs :=
  { nStars := 2, kogoodStart := fun _ => true, tDet := fun _ => 1,
    kogoodEnd := fun _ => true, comp0 := fun _ => 1, compUpd := fun _ => 1,
    timeMultiplier := 1, intCutoff := 10, randIdx := 0 }

/-- Concrete clock state at mission start with a single 100-day block. -/
def tkC3 : TimeKeeping :=
  { currentTimeAbs := 0, currentTimeNorm := 0, exoplanetObsTime := 0,
    missionLife := 100, missionPortion := 1, OBstartTimes := [0],
    OBendTimes := [100], OBnumber := 0, dtAlloc := 1 }

/-- Witness for C3: in the concrete scenario the loop returns the target with
a stored integration time of one day, which satisfies the strict bounds. -/
theorem next_target_time_in_bounds_witness :
    0 < (1 : ℚ) * inpC3.timeMultiplier ∧
    (1 : ℚ) * inpC3.timeMultiplier < inpC3.intCutoff :=
  next_target_time_in_bounds inpC3 (fun _ => 0) [] 1 tkC3 0 1 (by
    rw [next_target_loop]
    norm_num [mission_is_over, tkC3, TimeKeeping.curOBend,
      nextTargetPipeline, sInds4, sInds3, sInds2, sInds1, tDetsArr, tTot,
      npAnyNat, tovisit, minVisits, qminN, ind_rev, entryMatched, pickMax, qmax,
      compEff, npChoice, inpC3, List.range, List.range.loop, List.filter])

/-- C4: during the visit-recency stage of `next_target` (lines 394-401), a
revisit entry `(s, t_r)` whose target is among the surviving candidates is
matched exactly when `|t_r - currentTimeNorm| < 1 week` (7 days, strictly: an
entry at a distance of exactly one week or more is not matched), and a matched
entry makes the target eligible for selection by forcing its `tovisit` flag
true. -/
theorem revisit_matching (R : List (ℕ × ℚ)) (now : ℚ) (l : List ℕ)
    (visits : ℕ → ℕ) (s : ℕ) (tr : ℚ)
    (hs : s ∈ l) (hR : (s, tr) ∈ R) :
    (entryMatched now l (s, tr) = true ↔ |tr - now| < 7) ∧
    (|tr - now| < 7 → tovisit visits R now l s = true) := by
  constructor
  · unfold entryMatched
    simp [hs]
  · intro hlt
    unfold tovisit
    simp only [Bool.or_eq_true, Bool.and_eq_true]
    refine Or.inr ⟨?_, ?_⟩
    · simp [List.isEmpty_eq_false_iff_exists_mem]
      exact List.ne_nil_of_mem hR
    · refine decide_eq_true ?_
      unfold ind_rev
      refine List.mem_map.2 ⟨(s, tr), List.mem_filter.2 ⟨hR, ?_⟩, rfl⟩
      unfold entryMatched
      simp [hs, hlt]

/-- Witness for C4: a concrete pending entry for target 1 at revisit time 3,
with the clock at time 0 (distance three days, inside the one-week window). -/
theorem revisit_matching_witness :
    (entryMatched 0 [1] (1, 3) = true ↔ |(3 : ℚ) - 0| < 7) ∧
    (|(3 : ℚ) - 0| < 7 → tovisit (fun _ => 0) [(1, 3)] 0 [1] 1 = true) :=
  revisit_matching [(1, 3)] 0 [1] (fun _ => 0) 1 3 (by simp) (by simp)

/-- C10 (implicit): every filter stage of `next_target` gates on `np.any` of
the surviving candidate-index array, so a surviving set consisting solely of
star index 0 is treated as empty.  Whenever the set surviving the
visit-recency stage is exactly `[0]`, the selection step does not run: the
pipeline reports no target and the loop falls through to the retry branch,
allocating `dtAlloc` and repeating (lines 375-421). -/
theorem zero_index_survivor_not_selected (inp : NTInputs) (visits : ℕ → ℕ)
    (R : List (ℕ × ℚ)) (tk : TimeKeeping) (fuel : ℕ)
    (h0 : sInds4 inp visits R tk.currentTimeNorm = [0])
    (hover : mission_is_over tk = false) :
    nextTargetPipeline inp visits R tk.currentTimeNorm = none ∧
    next_target_loop inp visits R (fuel+1) tk =
      next_target_loop inp visits R fuel (allocate_time tk tk.dtAlloc true).1 := by
  have hpipe : nextTargetPipeline inp visits R tk.currentTimeNorm = none := by
    unfold nextTargetPipeline
    rw [h0, if_neg (by decide)]
  refine ⟨hpipe, ?_⟩
  rw [next_target_loop, if_neg (by simp [hover]), hpipe]

/-- Single-star concrete scenario for C10: the only catalog star has index 0
and passes every filter, so the survivor set is exactly `[0]`. -/
def inpC10 : NTInputs :=
  { nStars := 1, kogoodStart := fun _ => true, tDet := fun _ => 1,
    kogoodEnd := fun _ => true, comp0 := fun _ => 1, compUpd := fun _ => 1,
    timeMultiplier := 1, intCutoff := 10, randIdx := 0 }

/-- Concrete clock state for C10 (mission far from over). -/
def tkC10 : TimeKeeping :=
  { currentTimeAbs := 0, currentTimeNorm := 0, exoplanetObsTime := 0,
    missionLife := 100, missionPortion := 1, OBstartTimes := [0],
    OBendTimes := [100], OBnumber := 0, dtAlloc := 1 }

/-- Witness for C10: with a one-star catalog whose sole star (index 0) passes
every filter, the pipeline nevertheless returns no target and the loop
retries. -/
theorem zero_index_survivor_not_selected_witness :
    nextTargetPipeline inpC10 (fun _ => 0) [] tkC10.currentTimeNorm = none ∧
    next_target_loop inpC10 (fun _ => 0) [] 3 tkC10 =
      next_target_loop inpC10 (fun _ => 0) [] 2
        (allocate_time tkC10 tkC10.dtAlloc true).1 :=
  zero_index_survivor_not_selected inpC10 (fun _ => 0) [] tkC10 2
    (by norm_num [sInds4, sInds3, sInds2, sInds1, tDetsArr, tTot, npAnyNat,
      tovisit, minVisits, qminN, ind_rev, entryMatched, inpC10, tkC10,
      List.range, List.range.loop, List.filter])
    (by norm_num [mission_is_over, tkC10, TimeKeeping.curOBend])

/-- C8 amended: the core never inspects the boolean returned by
`allocate_time` (lines 332, 420, 495, 500, 729, 742 all discard it); in the
no-target retry branch of `next_target`, when the `dtAlloc` allocation fails
the loop simply re-enters with the identical clock state — no alternative
action (such as advancing to the next Observing Block) is taken. -/
theorem allocate_failure_continues_unchanged (inp : NTInputs)
    (visits : ℕ → ℕ) (R : List (ℕ × ℚ)) (tk : TimeKeeping) (fuel : ℕ)
    (hover : mission_is_over tk = false)
    (hpipe : nextTargetPipeline inp visits R tk.currentTimeNorm = none)
    (hfail : (allocate_time tk tk.dtAlloc true).2 = false) :
    next_target_loop inp visits R (fuel+1) tk =
      next_target_loop inp visits R fuel tk := by
  have hst := allocate_time_fail tk tk.dtAlloc true hfail
  rw [next_target_loop, if_neg (by simp [hover]), hpipe]
  show next_target_loop inp visits R fuel (allocate_time tk tk.dtAlloc true).1 =
    next_target_loop inp visits R fuel tk
  rw [hst]

/-- Clock state refuting C8 as stated: the mission is not over (a second
Observing Block starts at day 50), yet allocating `dtAlloc = 1` day at
`currentTimeNorm = 9.5` would overrun the current block's end (day 10), so
the allocation fails. -/
def tkC8 : TimeKeeping :=
  { currentTimeAbs := 19/2, currentTimeNorm := 19/2, exoplanetObsTime := 0,
    missionLife := 100, missionPortion := 1/2, OBstartTimes := [0, 50],
    OBendTimes := [10, 60], OBnumber := 0, dtAlloc := 1 }

/-- Catalog-free selector inputs for C8 (the pipeline finds no target, so the
retry branch runs). -/
def inpC8 : NTInputs :=
  { nStars := 0, kogoodStart := fun _ => true, tDet := fun _ => 1,
    kogoodEnd := fun _ => true, comp0 := fun _ => 1, compUpd := fun _ => 1,
    timeMultiplier := 1, intCutoff := 10, randIdx := 0 }

/-- Counterexample to C8 as stated: at `tkC8` the retry-branch call to
`allocate_time` returns `false`, the mission is not over, and the caller's
continuation state is exactly `tkC8` — the failure return is discarded and no
alternative action (the claim suggests advancing to the next Observing Block)
is taken; the loop re-runs with an identical state. -/
theorem allocate_failure_ignored_counterexample :
    (allocate_time tkC8 tkC8.dtAlloc true).2 = false ∧
    (allocate_time tkC8 tkC8.dtAlloc true).1 = tkC8 ∧
    mission_is_over tkC8 = false := by
  norm_num [allocate_time, tkC8, TimeKeeping.curOBend, mission_is_over]

/-- Witness for the amended C8: at the concrete state the loop step after the
failed allocation equals the loop on the unchanged state. -/
theorem allocate_failure_continues_unchanged_witness :
    next_target_loop inpC8 (fun _ => 0) [] 3 tkC8 =
      next_target_loop inpC8 (fun _ => 0) [] 2 tkC8 :=
  allocate_failure_continues_unchanged inpC8 (fun _ => 0) [] tkC8 2
    (by norm_num [mission_is_over, tkC8, TimeKeeping.curOBend])
    (by norm_num [nextTargetPipeline, sInds4, sInds3, sInds2, sInds1,
      npAnyNat, inpC8, List.range, List.range.loop, List.filter])
    (by norm_num [allocate_time, tkC8, TimeKeeping.curOBend])

/-! ## Observation Executor: detection
(`observation_detection`, SurveySimulation.py lines 435-562)

The photon-count model feeding the SNR vector is an external oracle; the
classification of planets by working angle and the missed-detection mask are
core logic, embedded below.  Working angles are in the same angular unit as
the `IWA`/`OWA` limits. -/

/-- Working-angle classification of one planet (lines 473-477): `observable`
is initialised to 1, then `observable[WA < OS.IWA] = -1` followed by
`observable[WA > OS.OWA] = -2`; where both conditions hold, the later
assignment wins. -/
def observableStatus (IWA OWA WA : ℚ) : ℤ :=
  if OWA < WA then -2 else if WA < IWA then -1 else 1

/-- Status assignment (lines 504-507): `detected = observable` followed by
`detected[obs] = (~MD).astype(int)`, where `obs` marks the in-range planets
and `MD` is the missed-detection mask returned by the detection-statistics
oracle, indexed positionally over the in-range planets.  `k` carries the
number of in-range planets already passed. -/
def assignDet (md : ℕ → Bool) : List ℤ → ℕ → List ℤ
  | [], _ => []
  | s :: rest, k =>
    if s = 1 then (if md k then 0 else 1) :: assignDet md rest (k+1)
    else s :: assignDet md rest k

/-- The `detected` array returned by `observation_detection` for the planets
of the observed star, given their working angles and the oracle's
missed-detection mask. -/
def observation_detected (IWA OWA : ℚ) (WAs : List ℚ) (md : ℕ → Bool) :
    List ℤ :=
  assignDet md (WAs.map (observableStatus IWA OWA)) 0

/-- Position of planet `i` within the in-range sublist (the index at which
the oracle's missed-detection mask is consulted for it). -/
def inRangeRank (IWA OWA : ℚ) (WAs : List ℚ) (i : ℕ) : ℕ :=
  ((WAs.take i).map (observableStatus IWA OWA)).countP (fun s => decide (s = 1))

/-- Pointwise description of `assignDet`: entries equal to 1 are replaced by
the negated missed-detection flag at their in-range position, all other
entries are kept. -/
theorem assignDet_getD (md : ℕ → Bool) :
    ∀ (l : List ℤ) (k i : ℕ),
      (assignDet md l k).getD i 0 =
        if l.getD i 0 = 1 then
          (if md (k + (l.take i).countP (fun s => decide (s = 1))) then 0 else 1)
        else l.getD i 0
  | [], k, i => by simp [assignDet]
  | s :: rest, k, 0 => by
    by_cases hs : s = 1 <;> simp [assignDet, hs]
  | s :: rest, k, i+1 => by
    by_cases hs : s = 1
    · rw [assignDet, if_pos hs, List.getD_cons_succ, List.getD_cons_succ,
        assignDet_getD md rest (k+1) i, List.take_succ_cons, List.countP_cons]
      simp [hs, Nat.add_assoc, Nat.add_comm 1]
    · rw [assignDet, if_neg hs, List.getD_cons_succ, List.getD_cons_succ,
        assignDet_getD md rest k i, List.take_succ_cons, List.countP_cons]
      simp [hs]

/-- `getD` commutes with `map` at in-range positions. -/
theorem getD_map_lt (f : ℚ → ℤ) :
    ∀ (l : List ℚ) (i : ℕ), i < l.length → (l.map f).getD i 0 = f (l.getD i 0)
  | a :: t, 0, _ => rfl
  | a :: t, j+1, h => by
    rw [List.map_cons, List.getD_cons_succ, List.getD_cons_succ]
    exact getD_map_lt f t j (by simpa using h)

/-- C5: for every call `observation_detection(sInd, t_det, mode)` (with a
sensibly configured instrument, `IWA ≤ OWA`), planet `i` of the star receives
status `-1` when its working angle is below the inner working-angle limit,
`-2` when it is above the outer limit, and, when in range, status 1 exactly
when the detection-statistics oracle does not flag it as a missed detection,
else 0 (lines 470-507). -/
theorem detection_status_classification (IWA OWA : ℚ) (WAs : List ℚ)
    (md : ℕ → Bool) (i : ℕ) (hLim : IWA ≤ OWA) (hi : i < WAs.length) :
    (observation_detected IWA OWA WAs md).getD i 0 =
      if WAs.getD i 0 < IWA then -1
      else if OWA < WAs.getD i 0 then -2
      else if md (inRangeRank IWA OWA WAs i) then 0 else 1 := by
  unfold observation_detected
  rw [assignDet_getD md _ 0 i, getD_map_lt (observableStatus IWA OWA) WAs i hi]
  have hcount : ((WAs.map (observableStatus IWA OWA)).take i).countP
      (fun s => decide (s = 1)) = inRangeRank IWA OWA WAs i := by
    unfold inRangeRank
    rw [List.map_take]
  by_cases h2 : OWA < WAs.getD i 0
  · have hobs : observableStatus IWA OWA (WAs.getD i 0) = -2 := by
      unfold observableStatus
      rw [if_pos h2]
    have h1 : ¬ WAs.getD i 0 < IWA := by
      intro hlt
      exact absurd (lt_of_le_of_lt hLim h2) (not_lt.2 hlt.le)
    rw [hobs, if_neg h1, if_pos h2]
    norm_num
  · by_cases h1 : WAs.getD i 0 < IWA
    · have hobs : observableStatus IWA OWA (WAs.getD i 0) = -1 := by
        unfold observableStatus
        rw [if_neg h2, if_pos h1]
      rw [hobs, if_pos h1]
      norm_num
    · have hobs : observableStatus IWA OWA (WAs.getD i 0) = 1 := by
        unfold observableStatus
        rw [if_neg h2, if_neg h1]
      rw [hobs, if_neg h1, if_neg h2, if_pos rfl, Nat.zero_add, hcount]

/-- Witness for C5: three planets with working angles 1/2 (below the inner
limit 1), 20 (above the outer limit 10) and 5 (in range), no missed
detections: the in-range planet at index 2 is detected. -/
theorem detection_status_classification_witness :
    (observation_detected 1 10 [1/2, 20, 5] (fun _ => false)).getD 2 0 =
      if (5:ℚ) < 1 then -1
      else if (10:ℚ) < 5 then -2
      else if (fun _ => false : ℕ → Bool) (inRangeRank 1 10 [1/2, 20, 5] 2)
        then 0 else 1 := by
  have h := detection_status_classification 1 10 [1/2, 20, 5] (fun _ => false)
    2 (by norm_num) (by norm_num)
  simpa using h

/-! ## Observation Executor: characterization
(`observation_characterization`, SurveySimulation.py lines 564-697)

NumPy helpers used by the embedding.  A crucial semantic point: boolean-mask
and integer fancy indexing (`a[mask]`, `a[idxs]`) return *copies*; an
assignment through a chain of such indexing operations, as in line 679
`characterized[det][tochar][cutoff][kogoodEnd][char] = -1` and line 686
`...[char][full] = 1`, mutates only the final temporary copy and leaves the
base array untouched. -/

/-- `np.any` over a boolean array. -/
def npAnyBool (l : List Bool) : Bool := l.any id

/-- Truthiness of `np.any` over an integer array: some element nonzero. -/
def npAnyZ (l : List ℤ) : Bool := l.any (fun i => decide (i ≠ 0))

/-- Truthiness of `np.any` over a float array: some element nonzero. -/
def npAnyQ (l : List ℚ) : Bool := l.any (fun x => decide (x ≠ 0))

/-- NumPy boolean-mask indexing `a[mask]` (mask and array of equal length in
all uses below). -/
def applyMask {α : Type} : List α → List Bool → List α
  | [], _ => []
  | _, [] => []
  | a :: as, b :: bs => if b then a :: applyMask as bs else applyMask as bs

/-- NumPy integer fancy indexing `a[idxs]` for nonnegative position lists. -/
def selectIdx {α : Type} (l : List α) (idxs : List ℕ) : List α :=
  idxs.filterMap (fun i => l.get? i)

/-- NumPy scalar read `a[i]` for a possibly negative index (a negative index
wraps from the end, as in `fullSpectra[pIndsDet]` when `pIndsDet` holds the
false-alarm sentinel -1). -/
def npGet (l : List ℕ) (i : ℤ) : ℕ :=
  if 0 ≤ i then l.getD i.toNat 0 else l.getD (l.length - i.natAbs) 0

/-- `np.where(a == v)[0]`. -/
def whereEqZ (l : List ℤ) (v : ℤ) : List ℕ :=
  (List.range l.length).filter (fun i => decide (l.getD i 0 = v))

/-- `a[idxs] += 1` over a counter array, with `idxs` a list of planet
indices. -/
def incrAt (l : List ℕ) (idxs : List ℤ) : List ℕ :=
  (List.range l.length).map
    (fun i => if Int.ofNat i ∈ idxs then l.getD i 0 + 1 else l.getD i 0)

/-- Oracle inputs and mode constants consumed by one
`observation_characterization` call on a fixed target star.  `tChars` is the
output of the external `calc_intTime` oracle over the to-characterize
planets (line 629), `kogoodEnd` the keepout oracle's verdicts over the
cutoff-surviving end times (line 636), and `SNR` the signal-to-noise vector
produced by the (external) photon-count integration, including the appended
false-alarm entry when present (lines 644-671). -/
structure CharInputs where
  pInds : List ℕ
  det : List Bool
  lastWA : List ℚ
  kogoodStart : Bool
  tChars : List ℚ
  timeMultiplier : ℚ
  intCutoff : ℚ
  kogoodEnd : List Bool
  SNR : List ℚ
  SNRthresh : ℚ
  BW : ℚ
  IWA : ℚ
  OWA : ℚ

/-- Line 595: a false alarm occurred iff the stored detection list is one
longer than the star's planet list. -/
def charFA (c : CharInputs) : Bool := c.det.length == c.pInds.length + 1

/-- Lines 592-597: the planet indices, with -1 appended on a false alarm. -/
def charPInds (c : CharInputs) : List ℤ :=
  c.pInds.map (fun n => (n : ℤ)) ++ (if charFA c then [-1] else [])

/-- Line 607: `pIndsDet = pInds[det]`. -/
def charPIndsDet (c : CharInputs) : List ℤ := applyMask (charPInds c) c.det

/-- Lines 608-614: the to-characterize mask over `pIndsDet` — planets whose
full-spectrum counter is not 1; on a false alarm the trailing (virtual)
entry is always included. -/
def charTochar (full : List ℕ) (c : CharInputs) : List Bool :=
  if charFA c = false then
    (charPIndsDet c).map (fun p => decide (npGet full p ≠ 1))
  else if 1 < (charPIndsDet c).length then
    ((charPIndsDet c).dropLast.map (fun p => decide (npGet full p ≠ 1))) ++ [true]
  else [true]

/-- Line 632: positions of to-characterize planets whose total time
`t_chars*timeMultiplier` is below the integration cutoff. -/
def charCutoff (c : CharInputs) : List ℕ :=
  (List.range (c.tChars.map (fun t => t * c.timeMultiplier)).length).filter
    (fun i => decide ((c.tChars.map (fun t => t * c.timeMultiplier)).getD i 0
      < c.intCutoff))

/-- The `char` mask of line 676: `SNR > mode['SNR']`. -/
def charMask (c : CharInputs) : List Bool :=
  c.SNR.map (fun x => decide (c.SNRthresh < x))

/-- Line 600: `characterized = np.zeros(det.size)`. -/
def charZeros (c : CharInputs) : List ℤ := List.replicate c.det.length 0

/-- Lines 688-695: `counter[sel] += 1` where `sel` is read back from
`characterized`, gated on `np.any(sel)` (elementwise truthiness over the
planet indices), with a trailing false-alarm sentinel stripped first. -/
def charCounterUpdate (counter : List ℕ) (sel : List ℤ) : List ℕ :=
  if npAnyZ sel then
    incrAt counter (if sel.getLast? = some (-1) then sel.dropLast else sel)
  else counter

/-- One `observation_characterization` call: returns the `characterized`
status array together with the updated full- and partial-spectra counters.
The branch structure follows lines 599-696.  In the innermost branch the two
status assignments (lines 679 and 686) go through chains of NumPy advanced
indexing (`characterized[det][tochar][cutoff][kogoodEnd][char][...] = ±1`);
each step of such a chain yields a copy, so the assignments mutate only the
final temporary and `characterized` keeps the zeros of line 600.  The counter
updates of lines 688-695 then read `np.where(characterized == ±1)` from the
unchanged array. -/
def charStep (full partS : List ℕ) (c : CharInputs) :
    List ℤ × List ℕ × List ℕ :=
  if ¬ npAnyZ (charPInds c) then (charZeros c, full, partS)
  else if c.kogoodStart && npAnyBool (charTochar full c) then
    if npAnyBool c.kogoodEnd then
      if npAnyQ c.SNR then
        if npAnyBool (charMask c) then
          (charZeros c,
            charCounterUpdate full (selectIdx (charPInds c) (whereEqZ (charZeros c) 1)),
            charCounterUpdate partS (selectIdx (charPInds c) (whereEqZ (charZeros c) (-1))))
        else (charZeros c, full, partS)
      else (charZeros c, full, partS)
    else (charZeros c, full, partS)
  else (charZeros c, full, partS)

/-- `getD` on a constant list returns that constant. -/
theorem getD_replicate_self {α : Type} (z : α) :
    ∀ (n i : ℕ), (List.replicate n z).getD i z = z
  | 0, _ => by simp
  | n+1, 0 => rfl
  | n+1, i+1 => by
    rw [List.replicate_succ, List.getD_cons_succ]
    exact getD_replicate_self z n i

/-- Nothing in an all-zero status array equals a nonzero code. -/
theorem whereEqZ_replicate (n : ℕ) (v : ℤ) (hv : v ≠ 0) :
    whereEqZ (List.replicate n 0) v = [] := by
  unfold whereEqZ
  rw [List.filter_eq_nil_iff]
  intro a _
  simp only [getD_replicate_self, decide_eq_true_eq]
  exact fun h => hv h.symm

/-- The spectra counters are never changed by a characterization call: the
status array the updates are keyed on is still all zeros. -/
theorem charStep_counters (full partS : List ℕ) (c : CharInputs) :
    (charStep full partS c).2.1 = full ∧ (charStep full partS c).2.2 = partS := by
  unfold charStep
  have h1 : whereEqZ (charZeros c) 1 = [] :=
    whereEqZ_replicate c.det.length 1 (by norm_num)
  have h2 : whereEqZ (charZeros c) (-1) = [] :=
    whereEqZ_replicate c.det.length (-1) (by norm_num)
  split_ifs <;>
    simp [h1, h2, charCounterUpdate, selectIdx, npAnyZ]

/-- The status array returned by a characterization call is all zeros. -/
theorem charStep_status (full partS : List ℕ) (c : CharInputs) :
    (charStep full partS c).1 = charZeros c := by
  unfold charStep
  split_ifs <;> rfl

/-- Concrete characterization call for C6: the single planet (index 1) was
detected, keepout passes at start and end, its total characterization time 1
is below the cutoff 10; the oracle SNR 5 exceeds the mode threshold 1, and
the stored working angle 10 lies strictly inside the bandwidth-adjusted
margin (IWA·(1+BW/2), OWA·(1-BW/2)) = (5/4, 75). -/
def cC6 : CharInputs :=
  { pInds := [1], det := [true], lastWA := [10], kogoodStart := true,
    tChars := [1], timeMultiplier := 1, intCutoff := 10, kogoodEnd := [true],
    SNR := [5], SNRthresh := 1, BW := 1/2, IWA := 1, OWA := 100 }

/-- C6 (code bug): the claim requires the returned code for this planet to be
1 (its SNR 5 exceeds the threshold 1 and its working angle 10 lies strictly
between IWA·(1+BW/2) = 5/4 and OWA·(1-BW/2) = 75), but the call returns
status 0 and leaves the full-spectrum counter untouched: the two status
assignments (lines 679 and 686) write through chained NumPy advanced-indexing
copies and never reach `characterized`, contradicting the function's own
docstring ("1 is full spectrum") and the comment at lines 673-674. -/
theorem characterization_status_never_assigned :
    cC6.SNRthresh < 5 ∧
    cC6.IWA * (1 + cC6.BW/2) < 10 ∧ (10:ℚ) < cC6.OWA * (1 - cC6.BW/2) ∧
    (charStep [0] [0] cC6).1 = [0] ∧
    (charStep [0] [0] cC6).2.1 = [0] := by
  refine ⟨by norm_num [cC6], by norm_num [cC6], by norm_num [cC6], ?_, ?_⟩
  · rw [charStep_status]
    norm_num [charZeros, cC6]
  · exact (charStep_counters [0] [0] cC6).1

/-- The to-characterize planet list of one call: `pIndsDet[tochar]`
(lines 607-614, the set the claim C7 speaks about). -/
def charTocharPlanets (full : List ℕ) (c : CharInputs) : List ℤ :=
  applyMask (charPIndsDet c) (charTochar full c)

/-- The mission's characterization history: full- and partial-spectra
counters after a sequence of `observation_characterization` calls, starting
from the all-zero initialisation of `run_sim` (lines 202-203).  No other
operation of the source writes these counters (they are read at lines
608-614 and written only at lines 688-695). -/
def charRun (nPlans : ℕ) : List CharInputs → List ℕ × List ℕ
  | [] => (List.replicate nPlans 0, List.replicate nPlans 0)
  | c :: rest =>
    ((charStep (charRun nPlans rest).1 (charRun nPlans rest).2 c).2.1,
     (charStep (charRun nPlans rest).1 (charRun nPlans rest).2 c).2.2)

/-- In any reachable mission state the counters are still the initial
zeros. -/
theorem charRun_eq_init (nPlans : ℕ) :
    ∀ (calls : List CharInputs),
      charRun nPlans calls = (List.replicate nPlans 0, List.replicate nPlans 0)
  | [] => rfl
  | c :: rest => by
    have ih := charRun_eq_init nPlans rest
    have h := charStep_counters (charRun nPlans rest).1 (charRun nPlans rest).2 c
    rw [charRun, h.1, h.2, ih]

/-- C7: across every operation of the simulation, every planet's full-spectrum
counter never decreases under a further `observation_characterization` call
(unconditionally), and every planet appearing in a call's to-characterize
candidate set has a full-spectrum counter equal to 0 — in particular no
planet with counter ≥ 1 is ever in that set. -/
theorem fullSpectra_monotone_excluded (nPlans : ℕ) (calls : List CharInputs)
    (c : CharInputs) (p : ℕ) :
    (charRun nPlans calls).1.getD p 0 ≤ (charRun nPlans (c :: calls)).1.getD p 0 ∧
    (Int.ofNat p ∈ charTocharPlanets (charRun nPlans calls).1 c →
      (charRun nPlans calls).1.getD p 0 = 0) := by
  constructor
  · rw [charRun,
      (charStep_counters (charRun nPlans calls).1 (charRun nPlans calls).2 c).1]
  · intro _
    rw [charRun_eq_init]
    exact getD_replicate_self 0 nPlans p

/-- Concrete characterization call for C7's witness: planet 2 of a
three-planet universe was detected and is in the to-characterize set. -/
def cC7 : CharInputs :=
  { pInds := [2], det := [true], lastWA := [10], kogoodStart := true,
    tChars := [1], timeMultiplier := 1, intCutoff := 10, kogoodEnd := [true],
    SNR := [5], SNRthresh := 1, BW := 1/2, IWA := 1, OWA := 100 }

/-- Witness for C7: at the concrete call from the initial state, planet 2's
counter does not decrease, and since it is in the call's to-characterize set
its counter equals 0. -/
theorem fullSpectra_monotone_excluded_witness :
    (charRun 3 []).1.getD 2 0 ≤ (charRun 3 [cC7]).1.getD 2 0 ∧
    (charRun 3 []).1.getD 2 0 = 0 :=
  ⟨(fullSpectra_monotone_excluded 3 [] cC7 2).1,
   (fullSpectra_monotone_excluded 3 [] cC7 2).2 (by decide)⟩

/-! ## Resource Ledger (`update_occulter_mass`,
SurveySimulation.py lines 746-808)

The Observatory's disturbance-force and mass-decrement models are external
oracles; `arcsinQ` abstracts the `np.arcsin` call of line 778.  Fallible
execution is modelled in `Except`: a read of a Python name that is bound
nowhere in the function raises `NameError`. -/

/-- Occulter-related observatory state read and written by the ledger. -/
structure OcculterState where
  scMass : ℚ
  thrust : ℚ
  occulterSep : ℚ
  defburnPortion : ℚ
  flowRate : ℚ

/-- The occulter-related fields of the observation record. -/
structure OcculterDRM where
  slew_time : ℚ
  slew_angle : ℚ
  slew_dV : ℚ
  slew_mass_used : ℚ
  det_dV : ℚ
  det_mass_used : ℚ
  det_scMass : ℚ
  char_dV : ℚ
  char_mass_used : ℚ
  char_scMass : ℚ

/-- `update_occulter_mass` as written (lines 746-808).  The slew section
(lines 774-782) computes and records the slew values; line 786 then reads
`sInd` — `dF_lateral, dF_axial = Obs.distForces(TL, sInd, detBegin)` — but
`sInd` is bound nowhere in this function (it is not a parameter and is never
assigned), so every call raises `NameError` there and no mass is ever
decremented. -/
def update_occulter_mass (obs : OcculterState) (arcsinQ : ℚ → ℚ)
    (slewTime t_det t_char detBegin charBegin : ℚ) :
    Except String (OcculterState × OcculterDRM) :=
  let a_o := obs.thrust / obs.scMass
  let slewTime_fac := 2 * obs.occulterSep / |a_o| /
      (obs.defburnPortion / 2 - obs.defburnPortion ^ 2 / 4)
  let _slew_angle := 2 * arcsinQ (slewTime ^ 2 / slewTime_fac)
  let _slew_mass_used := slewTime * obs.defburnPortion * obs.flowRate
  let _slew_dV := slewTime * a_o * obs.defburnPortion
  Except.error "NameError: name sInd is not defined"

/-- Hypothetical repair of `update_occulter_mass` in which the star index
`sInd` is supplied as a parameter (the evident intent — the values it feeds,
`Obs.distForces(TL, sInd, ...)`, are abstracted here by the `distForces`
oracle, and `Obs.mass_dec` by `massDec`, returning
`(intMdot, mass_used, deltaV)`).  The detection section (lines 784-793) then
completes, including the spacecraft-mass decrement of line 792, and the
characterization section computes and records `char_mass_used = intMdot *
t_char` (lines 801-803); but line 805, `Obs.scMass -= mass_used_char`, reads
the name `mass_used_char`, which is never assigned (the computed value is
named `char_mass_used`), so even the repaired call raises `NameError` before
the characterization mass decrement. -/
def update_occulter_mass_sInd (obs : OcculterState) (arcsinQ : ℚ → ℚ)
    (distForces : ℕ → ℚ → ℚ) (massDec : ℚ → ℚ → ℚ × ℚ × ℚ) (sInd : ℕ)
    (slewTime t_det t_char detBegin charBegin : ℚ) :
    Except String (OcculterState × OcculterDRM) :=
  let a_o := obs.thrust / obs.scMass
  let slewTime_fac := 2 * obs.occulterSep / |a_o| /
      (obs.defburnPortion / 2 - obs.defburnPortion ^ 2 / 4)
  let _slew_angle := 2 * arcsinQ (slewTime ^ 2 / slewTime_fac)
  let slew_mass_used := slewTime * obs.defburnPortion * obs.flowRate
  let _slew_dV := slewTime * a_o * obs.defburnPortion
  let dF_lateral_det := distForces sInd detBegin
  let det_mass_used := (massDec dF_lateral_det t_det).2.1
  let _det_dV := (massDec dF_lateral_det t_det).2.2
  let scMass_after_det := obs.scMass - (slew_mass_used + det_mass_used)
  let dF_lateral_char := distForces sInd charBegin
  let intMdot := (massDec dF_lateral_char t_char).1
  let _char_dV := dF_lateral_char / scMass_after_det * t_char
  let _char_mass_used := intMdot * t_char
  Except.error "NameError: name mass_used_char is not defined"

/-- C9 (code bug): the claim says each call decrements `scMass` by the
computed `char_mass_used` and records that value; in fact every call of the
function as written raises `NameError` at line 786 (`sInd` is unbound), and
even with `sInd` supplied the mass update of line 805 raises `NameError`
(`mass_used_char` is unbound; the computed value is named `char_mass_used`,
the inconsistency the specification itself flags as a latent defect).
Evaluated here at a concrete call. -/
theorem update_occulter_mass_raises :
    update_occulter_mass
      { scMass := 6000, thrust := 450, occulterSep := 55000,
        defburnPortion := 1/20, flowRate := 2 }
      (fun x => x) 1 1 1 0 0 =
      Except.error "NameError: name sInd is not defined" ∧
    update_occulter_mass_sInd
      { scMass := 6000, thrust := 450, occulterSep := 55000,
        defburnPortion := 1/20, flowRate := 2 }
      (fun x => x) (fun _ _ => 1) (fun _ _ => (1, 1, 1)) 0 1 1 1 0 0 =
      Except.error "NameError: name mass_used_char is not defined" :=
  ⟨rfl, rfl⟩
